import Mathlib

/-!
Verification of the ai-review-pr CLI (Go).

The development shallowly embeds the two pipelines of the tool:
the review pipeline (`cmd/ai-review/ai-review.go`) and the Raygun errors
pipeline (`cmd/raygun/errors`, package `analyze`), plus the shared
`utils/claude` launcher.  External effects (git subprocesses, HTTP
responses, JSON decoding, the filesystem, standard input) are passed in
as explicit oracle parameters; the embedded functions are otherwise
direct translations of the Go control flow.  Strings are modelled as
Lean strings; where the Go code manipulates raw bytes (the crash-message
truncation) the message is modelled as its UTF-8 byte list.
-/

/-- `containsSubstr s sub` : `sub` occurs in `s` verbatim as a contiguous
run of characters. -/
def containsSubstr (s sub : String) : Prop :=
  ∃ l r, s.data = l ++ sub.data ++ r

/-- Mirrors `types.RaygunApplication` (identifier + display name). -/
structure RaygunApplication where
  identifier : String
  name : String
deriving DecidableEq

/-- Mirrors `types.ErrorGroup` (identifier, message, status, count). -/
structure ErrorGroup where
  identifier : String
  message : String
  status : String
  count : Int
deriving DecidableEq

/-- Mirrors `types.StackFrame`. -/
structure StackFrame where
  fileName : String
  lineNumber : Int
  methodName : String
deriving DecidableEq

/-- Mirrors `types.ErrorInfo`. -/
structure ErrorInfo where
  message : String
  className : String
  stackTrace : List StackFrame
deriving DecidableEq

/-- Mirrors `types.RequestInfo`. -/
structure RequestInfo where
  url : String
  httpMethod : String
deriving DecidableEq

/-- Mirrors `types.CrashReportDetail`. -/
structure CrashReportDetail where
  error : ErrorInfo
  request : RequestInfo
deriving DecidableEq

/-- The `lo.Filter` step of `start` in the errors pipeline: keep the error
groups whose `Status` equals `"active"`. -/
def activeFilter (errorGroups : List ErrorGroup) : List ErrorGroup :=
  errorGroups.filter (fun errorGroup => errorGroup.status == "active")

/-- Outcome of the error-group portion of `start` in the errors pipeline:
either a clean early return (Go `return nil` after a message) or the
presentation of a numbered selection over the given list. -/
inductive ErrorsStep where
  | cleanExitNoCrashes : ErrorsStep
  | cleanExitNoActive : ErrorsStep
  | promptSelection : List ErrorGroup → ErrorsStep
deriving DecidableEq

/-- Lines 104-120 of the errors pipeline `start`: empty fetch result exits
cleanly, otherwise the list is filtered to active groups; an empty active
subset exits cleanly, otherwise `chooseErrorGroup` is invoked on the
active subset. -/
def selectErrorGroupStep (errorGroups : List ErrorGroup) : ErrorsStep :=
  if errorGroups.length = 0 then ErrorsStep.cleanExitNoCrashes
  else
    let activeErrorGroups := activeFilter errorGroups
    if activeErrorGroups.length = 0 then ErrorsStep.cleanExitNoActive
    else ErrorsStep.promptSelection activeErrorGroups

/-- Oracle for the git subprocesses used by `getDiff`:
`revParseVerifyOk ref` is whether `git rev-parse --verify ref` exits 0;
`diffStat arg` / `diffFull arg` are the outputs of
`git diff --stat arg` / `git diff arg` (`none` = the command failed). -/
structure GitEnv where
  revParseVerifyOk : String → Bool
  diffStat : String → Option String
  diffFull : String → Option String

/-- The repeated fallback pattern of `getDiff`: run the command with the
three-dot form `targetRef...HEAD` first; on failure retry with the plain
two-dot form `targetRef`. -/
def threeDotOrTwoDot (run : String → Option String) (targetRef : String) : Option String :=
  match run (targetRef ++ "...HEAD") with
  | some output => some output
  | none => run targetRef

/-- The `fmt.Sprintf` at the end of `getDiff` combining stats and diff. -/
def formatDiff (statsOutput diffOutput : String) : String :=
  "=== DIFF STATS ===\n" ++ statsOutput ++ "\n\n=== FULL DIFF ===\n" ++ diffOutput

/-- The body of `getDiff` after the target ref has been resolved: obtain
the stats (with three-dot-to-two-dot fallback), then the full diff (same
fallback), then combine; a step whose fallback also fails aborts. -/
def getDiffWithRef (env : GitEnv) (targetRef : String) : Except String String :=
  match threeDotOrTwoDot env.diffStat targetRef with
  | none => Except.error "failed to get diff stats"
  | some statsOutput =>
    match threeDotOrTwoDot env.diffFull targetRef with
    | none => Except.error "failed to get diff"
    | some diffOutput => Except.ok (formatDiff statsOutput diffOutput)

/-- `getDiff` from `cmd/ai-review/ai-review.go`: prefer `origin/<target>`
when `git rev-parse --verify` accepts it, otherwise fall back to the bare
local branch name, then collect stats and full diff. -/
def getDiff (env : GitEnv) (_branchName targetBranch : String) : Except String String :=
  let targetRef :=
    if env.revParseVerifyOk ("origin/" ++ targetBranch) then "origin/" ++ targetBranch
    else targetBranch
  getDiffWithRef env targetRef

/-- The message-truncation step of `chooseErrorGroup`, at the byte level:
Go strings are byte sequences, `len` is the byte length and `msg[:77]` is
a raw byte slice, so the displayed form of a message longer than 80 bytes
is its first 77 bytes followed by the three bytes of `"..."`. -/
def truncateMessage (msg : List Nat) : List Nat :=
  if msg.length > 80 then msg.take 77 ++ [46, 46, 46] else msg

/-- A UTF-8 continuation byte (`10xxxxxx`). -/
def isUtf8ContinuationByte (b : Nat) : Bool :=
  128 ≤ b && b < 192

/-- Checker that a byte list is a well-formed UTF-8 encoding (every lead
byte is followed by the right number of continuation bytes); a list that
ends in the middle of a multi-byte character is rejected. -/
def validUtf8 : List Nat → Bool
  | [] => true
  | b :: rest =>
    if b < 128 then validUtf8 rest
    else if 194 ≤ b && b ≤ 223 then
      match rest with
      | c1 :: rest1 => isUtf8ContinuationByte c1 && validUtf8 rest1
      | [] => false
    else if 224 ≤ b && b ≤ 239 then
      match rest with
      | c1 :: c2 :: rest2 =>
        isUtf8ContinuationByte c1 && isUtf8ContinuationByte c2 && validUtf8 rest2
      | _ => false
    else if 240 ≤ b && b ≤ 244 then
      match rest with
      | c1 :: c2 :: c3 :: rest3 =>
        isUtf8ContinuationByte c1 && isUtf8ContinuationByte c2 &&
          isUtf8ContinuationByte c3 && validUtf8 rest3
      | _ => false
    else false

/-- A crash message of 82 bytes: 76 ASCII `a` bytes followed by three
copies of the 2-byte character `U+00E9` (bytes `0xC3 0xA9`); byte 77
falls in the middle of the first such character. -/
def badCrashMessage : List Nat :=
  List.replicate 76 97 ++ [195, 169, 195, 169, 195, 169]

/-- The two failure modes of the numbered-menu read shared by
`chooseRaygunApplication` and `chooseErrorGroup`: `fmt.Scanf` failing to
parse an integer, and a parsed integer outside `[1, len]`. -/
inductive SelError where
  | invalidInput : SelError
  | outOfRange : SelError
deriving DecidableEq

/-- The selection validation shared by `chooseRaygunApplication` and
`chooseErrorGroup`: `input = none` models a failed `fmt.Scanf("%d", ...)`;
a parsed integer outside `[1, len(items)]` is rejected; otherwise the
element at the 1-based position is returned.  There is no retry loop:
one read, one verdict. -/
def chooseFromList {α : Type} (items : List α) (input : Option Int) : Except SelError α :=
  match input with
  | none => Except.error SelError.invalidInput
  | some n =>
    if h : 1 ≤ n ∧ n ≤ (items.length : Int) then
      Except.ok (items.get ⟨(n - 1).toNat, by omega⟩)
    else Except.error SelError.outOfRange

/-- An HTTP response as consumed by the three Raygun client functions. -/
structure HTTPResponse where
  statusCode : Nat
  body : String
deriving DecidableEq

/-- The non-200 error message shared by all three Raygun calls
(`fmt.Errorf("raygun API returned status %d: %s", ...)`). -/
def apiStatusMessage (statusCode : Nat) (body : String) : String :=
  "raygun API returned status " ++ toString statusCode ++ ": " ++ body

/-- `fetchApplications`: non-200 is a hard failure carrying status and
body; a decode failure (the `decode` oracle models `json.Unmarshal`) is a
hard failure carrying the decode error; otherwise the decoded list. -/
def fetchApplications (decode : String → Except String (List RaygunApplication))
    (resp : HTTPResponse) : Except String (List RaygunApplication) :=
  if resp.statusCode ≠ 200 then Except.error (apiStatusMessage resp.statusCode resp.body)
  else
    match decode resp.body with
    | Except.error e => Except.error ("failed to decode applications: " ++ e)
    | Except.ok applications => Except.ok applications

/-- `listErrorGroups`: same shape as `fetchApplications`. -/
def listErrorGroups (decode : String → Except String (List ErrorGroup))
    (resp : HTTPResponse) : Except String (List ErrorGroup) :=
  if resp.statusCode ≠ 200 then Except.error (apiStatusMessage resp.statusCode resp.body)
  else
    match decode resp.body with
    | Except.error e => Except.error ("failed to decode error groups: " ++ e)
    | Except.ok errorGroups => Except.ok errorGroups

/-- `getErrorReportDetail`: same non-200 and decode contract, then the
first element of the decoded list, failing when the list is empty. -/
def getErrorReportDetail (decode : String → Except String (List CrashReportDetail))
    (resp : HTTPResponse) : Except String CrashReportDetail :=
  if resp.statusCode ≠ 200 then Except.error (apiStatusMessage resp.statusCode resp.body)
  else
    match decode resp.body with
    | Except.error e => Except.error ("failed to decode error detail: " ++ e)
    | Except.ok [] => Except.error "no error details found"
    | Except.ok (d :: _) => Except.ok d

/-- A decoder that always succeeds with the empty detail list (the
well-formed JSON document `[]`). -/
def decodeNilDetail : String → Except String (List CrashReportDetail) :=
  fun _ => Except.ok []

/-- A decoder for applications that always succeeds with the empty list. -/
def decodeApps0 : String → Except String (List RaygunApplication) :=
  fun _ => Except.ok []

/-- A decoder for error groups that always succeeds with the empty list. -/
def decodeGroups0 : String → Except String (List ErrorGroup) :=
  fun _ => Except.ok []

/-- Oracle for the three git subprocesses of `checkoutBranch`:
whether `git fetch --all` succeeds, the combined error text of
`git checkout <branch>` (`none` = success), and whether `git pull`
succeeds. -/
structure CheckoutEnv where
  fetchSucceeds : Bool
  checkoutFailure : Option String
  pullSucceeds : Bool
deriving DecidableEq

/-- `checkoutBranch` from the errors pipeline, returning the result and
the list of lines printed to the user.  As in the source, the results of
`git fetch --all` (`env.fetchSucceeds`) and of `git pull`
(`env.pullSucceeds`) are discarded without any output
(`fetchCmd.Run() // Ignore fetch errors`, `pullCmd.Run() // Ignore pull
errors`); only a `git checkout` failure aborts. -/
def checkoutBranch (env : CheckoutEnv) (branchName : String) :
    Except String Unit × List String :=
  match env.checkoutFailure with
  | some e =>
    (Except.error ("failed to checkout branch " ++ branchName ++ ": " ++ e), [])
  | none => (Except.ok (), ["Checked out branch: " ++ branchName])

/-- A run in which both best-effort git operations fail but the checkout
itself succeeds. -/
def checkoutEnvFetchFails : CheckoutEnv :=
  { fetchSucceeds := false, checkoutFailure := none, pullSucceeds := false }

/-- The context filled into the review prompt template
(`promptData` in `cmd/ai-review/ai-review.go`). -/
structure ReviewPromptData where
  branchName : String
  targetBranch : String
  diff : String
  reviewFilePath : String
deriving DecidableEq

/-- The context filled into the crash-analysis prompt template
(`promptData` in the errors pipeline); `crashDetails` is the indented
JSON marshalling of the crash detail. -/
structure ErrorPromptData where
  errorMessage : String
  crashDetails : String
  analysisFilePath : String
deriving DecidableEq

/-- Modelled from the spec: the embedded template file `prompt.tmpl` of
the review pipeline is not present in the source tree (only the
`go:embed` declaration and the `text/template` rendering call are).  Per
the spec the renderer merges fixed template text with the context so that
the diff text appears verbatim; the fixed text is modelled as literal
surrounding strings. -/
def renderReviewPrompt (d : ReviewPromptData) : String :=
  "You are reviewing branch " ++ d.branchName ++ " against " ++ d.targetBranch ++
    ".\n\n=== DIFF ===\n" ++ d.diff ++
    "\n\nWrite the review to " ++ d.reviewFilePath ++ "."

/-- Modelled from the spec: the embedded template file `prompt.tmpl` of
the errors pipeline is not present in the source tree.  Per the spec the
renderer merges fixed template text with the context so that the crash
JSON appears verbatim. -/
def renderErrorPrompt (d : ErrorPromptData) : String :=
  "Analyze this crash: " ++ d.errorMessage ++
    "\n\n=== CRASH DETAILS ===\n" ++ d.crashDetails ++
    "\n\nWrite the analysis to " ++ d.analysisFilePath ++ "."

/-- The model name constant of the review pipeline. -/
def claudeModelSonnet : String := "Sonnet"

/-- The model name constant of the errors pipeline. -/
def claudeModelHaiku : String := "Haiku"

/-- The argument vector passed to the assistant process
(`exec.Command("claude", "--model="+model, "--dangerously-skip-permissions",
"-p", prompt)`): the prompt is one discrete argument. -/
def claudeArgs (model prompt : String) : List String :=
  ["--model=" ++ model, "--dangerously-skip-permissions", "-p", prompt]

/-- The argument vector built by `launchClaudeReview`: the rendered
review prompt, passed as the `-p` argument. -/
def launchClaudeReviewArgs (repoDir branchName targetBranch diff : String) : List String :=
  claudeArgs claudeModelSonnet
    (renderReviewPrompt
      { branchName := branchName, targetBranch := targetBranch, diff := diff,
        reviewFilePath := repoDir ++ "/Review.md" })

/-- The argument vector built by `launchClaudeErrorAnalysis`: the
rendered crash-analysis prompt, passed as the `-p` argument. -/
def launchClaudeErrorAnalysisArgs (errorFilePath errorMessage crashJson : String) :
    List String :=
  claudeArgs claudeModelHaiku
    (renderErrorPrompt
      { errorMessage := errorMessage, crashDetails := crashJson,
        analysisFilePath := errorFilePath })

/-- `filepath.Join` for the single two-component use in both pipelines. -/
def joinPath (dir entry : String) : String := dir ++ "/" ++ entry

/-- The two failures of repository resolution: `filepath.Abs` failing,
and the `.git` entry being absent. -/
inductive RepoErr where
  | pathError : RepoErr
  | notAGitRepo : String → RepoErr
deriving DecidableEq

/-- The repository-resolution step shared by both `start` functions:
resolve the flag path to an absolute path (the `abs` oracle models
`filepath.Abs`), then require a `.git` entry under it (the
`gitEntryExists` oracle models `os.Stat` + `os.IsNotExist` on
`filepath.Join(absRepoPath, ".git")`). -/
def resolveRepository (abs : String → Option String) (gitEntryExists : String → Bool)
    (flagRepoPath : String) : Except RepoErr String :=
  match abs flagRepoPath with
  | none => Except.error RepoErr.pathError
  | some repoPath =>
    if gitEntryExists (joinPath repoPath ".git") then Except.ok repoPath
    else Except.error (RepoErr.notAGitRepo repoPath)

/-- A path-resolution oracle for already-absolute paths. -/
def absIdent : String → Option String := fun p => some p

/-- A filesystem in which exactly `/repo/.git` exists. -/
def fsWithGit : String → Bool := fun s => s == "/repo/.git"

/-- Oracle for the Output Publisher: the running operating system (which
the source never consults), whether the expected output file exists after
the assistant exits, and whether the viewer subprocess succeeds. -/
structure PublishEnv where
  goos : String
  outputFileExists : Bool
  openSucceeds : Bool
deriving DecidableEq

/-- The output-publishing tail shared by `launchClaudeReview`,
`launchClaudeErrorAnalysis` and `LaunchClaude`: if the output file
exists, print the opening message and invoke the viewer subprocess
`exec.Command("open", path)` — the program name is the literal `"open"`
whatever `env.goos` is — then print a warning if it fails; the function
returns `nil` in every case.  Result components: the returned error, the
subprocesses invoked as (program, argument) pairs, the printed lines. -/
def publishOutput (env : PublishEnv) (outputFilePath : String) :
    Except String Unit × List (String × String) × List String :=
  if env.outputFileExists then
    if env.openSucceeds then
      (Except.ok (), [("open", outputFilePath)],
        ["Opening output file: " ++ outputFilePath])
    else
      (Except.ok (), [("open", outputFilePath)],
        ["Opening output file: " ++ outputFilePath,
          "Warning: could not open output file"])
  else (Except.ok (), [], [])

/-- `chooseRaygunApplication` after `fetchApplications` returned
`applications`: an empty list is an error; a non-empty `raygunProject`
flag selects by exact name match via `lo.Find` with no prompt and no
stdin read; otherwise the numbered menu is shown and one integer is read.
The boolean records whether the interactive prompt was presented and
standard input read. -/
def chooseRaygunApplication (raygunProject : String)
    (applications : List RaygunApplication) (stdin : Option Int) :
    Except String RaygunApplication × Bool :=
  if applications.length = 0 then (Except.error "no applications found", false)
  else if raygunProject ≠ "" then
    match applications.find? (fun app => app.name == raygunProject) with
    | some application => (Except.ok application, false)
    | none =>
      (Except.error ("raygun project \x27" ++ raygunProject ++ "\x27 not found"), false)
  else
    match chooseFromList applications stdin with
    | Except.ok application => (Except.ok application, true)
    | Except.error SelError.invalidInput => (Except.error "invalid selection", true)
    | Except.error SelError.outOfRange => (Except.error "selection out of range", true)

/-- A git oracle in which `origin/main` verifies, `git diff --stat`
always succeeds with output `"S"`, and the full diff fails in the
three-dot form but succeeds in the two-dot form with output `"D"`. -/
def gitEnvW : GitEnv :=
  { revParseVerifyOk := fun ref => ref == "origin/main",
    diffStat := fun _ => some "S",
    diffFull := fun arg => if arg == "origin/main" then some "D" else none }

/-- An error group whose status is not active. -/
def egResolved : ErrorGroup :=
  { identifier := "id2", message := "msg2", status := "resolved", count := 3 }

/-- A sample application list with a single entry named MyApp. -/
def appsW : List RaygunApplication :=
  [{ identifier := "id1", name := "MyApp" }]

/-- Appending strings concatenates their character lists. -/
theorem string_data_append (a b : String) : (a ++ b).data = a.data ++ b.data := by
  cases a; cases b; rfl

/-- Every character of a contained substring is a character of the
containing string. -/
theorem containsSubstr_mem {s sub : String} (h : containsSubstr s sub) {c : Char}
    (hc : c ∈ sub.data) : c ∈ s.data := by
  obtain ⟨l, r, he⟩ := h
  rw [he]
  simp [hc]

/-- C1: in the errors pipeline, the list offered for selection is exactly
the subset of the fetched error groups whose status is "active", and when
that subset is empty the run returns cleanly without presenting a
selection prompt. -/
theorem c1_active_group_filter (errorGroups : List ErrorGroup) :
    (∀ offered, selectErrorGroupStep errorGroups = ErrorsStep.promptSelection offered →
      offered = activeFilter errorGroups ∧
      ∀ eg, eg ∈ offered ↔ (eg ∈ errorGroups ∧ eg.status = "active")) ∧
    (activeFilter errorGroups = [] →
      selectErrorGroupStep errorGroups = ErrorsStep.cleanExitNoCrashes ∨
      selectErrorGroupStep errorGroups = ErrorsStep.cleanExitNoActive) := by
  constructor
  · intro offered h
    unfold selectErrorGroupStep at h
    by_cases h0 : errorGroups.length = 0
    · simp [h0] at h
    · by_cases h1 : (activeFilter errorGroups).length = 0
      · simp [h0, h1] at h
      · simp only [h0, h1, if_false, if_true] at h
        injection h with h2
        subst h2
        refine ⟨rfl, fun eg => ?_⟩
        simp [activeFilter, List.mem_filter]
  · intro h
    unfold selectErrorGroupStep
    by_cases h0 : errorGroups.length = 0
    · simp [h0]
    · simp [h0, h]

/-- C1 witness: a fetched list with a single non-active group yields a
clean exit. -/
theorem c1_active_group_filter_witness :
    selectErrorGroupStep [egResolved] = ErrorsStep.cleanExitNoCrashes ∨
    selectErrorGroupStep [egResolved] = ErrorsStep.cleanExitNoActive :=
  (c1_active_group_filter [egResolved]).2 (by decide)

/-- C2: the Diff Collector uses `origin/<target>` exactly when the
reference-check accepts it and the bare branch name otherwise, and a
diff invocation is declared failed only after the three-dot form and
then the two-dot form have both failed; when the three-dot full diff
fails and the two-dot form succeeds, the two-dot output is used. -/
theorem c2_diff_collector (env : GitEnv) (branchName targetBranch : String) :
    (env.revParseVerifyOk ("origin/" ++ targetBranch) = true →
      getDiff env branchName targetBranch = getDiffWithRef env ("origin/" ++ targetBranch)) ∧
    (env.revParseVerifyOk ("origin/" ++ targetBranch) = false →
      getDiff env branchName targetBranch = getDiffWithRef env targetBranch) ∧
    (∀ run t, threeDotOrTwoDot run t = none ↔
      (run (t ++ "...HEAD") = none ∧ run t = none)) ∧
    (∀ t statsOut diffOut,
      env.diffStat (t ++ "...HEAD") = some statsOut →
      env.diffFull (t ++ "...HEAD") = none →
      env.diffFull t = some diffOut →
      getDiffWithRef env t = Except.ok (formatDiff statsOut diffOut)) := by
  refine ⟨fun h => by simp [getDiff, h], fun h => by simp [getDiff, h],
    fun run t => ?_, fun t statsOut diffOut h1 h2 h3 => ?_⟩
  · unfold threeDotOrTwoDot
    cases hr : run (t ++ "...HEAD") <;> simp [hr]
  · simp [getDiffWithRef, threeDotOrTwoDot, h1, h2, h3]

/-- C2 witness: with `origin/main` verifying, the stats three-dot call
succeeding and the full diff succeeding only in two-dot form, `getDiff`
returns the combined block built from both outputs. -/
theorem c2_diff_collector_witness :
    getDiff gitEnvW "feature" "main" = Except.ok (formatDiff "S" "D") := by
  have h := c2_diff_collector gitEnvW "feature" "main"
  exact (h.1 (by decide)).trans
    (h.2.2.2 ("origin/" ++ "main") "S" "D" rfl (by decide) (by decide))

/-- C3: evaluating the byte-slice truncation of `chooseErrorGroup` at a
valid-UTF-8 crash message whose 77-byte boundary falls inside a 2-byte
character: the displayed form stays within 80 bytes but is no longer
valid UTF-8, i.e. the truncation split a multi-byte character. -/
theorem c3_truncation_splits_multibyte :
    validUtf8 badCrashMessage = true ∧
    badCrashMessage.length = 82 ∧
    truncateMessage badCrashMessage = List.replicate 76 97 ++ [195, 46, 46, 46] ∧
    (truncateMessage badCrashMessage).length = 80 ∧
    validUtf8 (truncateMessage badCrashMessage) = false := by decide

/-- C4: the shared selector accepts exactly the integers in
`[1, length]`, returning the element at the 1-based position; any other
integer is an out-of-range `SelError` and a failed integer parse is an
invalid-input `SelError`. -/
theorem c4_selector_range {α : Type} (items : List α) (n : Int) :
    chooseFromList items none = Except.error SelError.invalidInput ∧
    (∀ h : 1 ≤ n ∧ n ≤ (items.length : Int),
      chooseFromList items (some n) =
        Except.ok (items.get ⟨(n - 1).toNat, by omega⟩)) ∧
    (¬ (1 ≤ n ∧ n ≤ (items.length : Int)) →
      chooseFromList items (some n) = Except.error SelError.outOfRange) := by
  refine ⟨rfl, fun h => ?_, fun h => ?_⟩
  · show dite _ _ _ = _
    rw [dif_pos h]
  · show dite _ _ _ = _
    rw [dif_neg h]

/-- C4 witness: input 2 against a 3-element list selects the second
element. -/
theorem c4_selector_range_witness :
    chooseFromList ["a", "b", "c"] (some 2) = Except.ok "b" := by
  have h := (c4_selector_range ["a", "b", "c"] (2 : Int)).2.1 ⟨by decide, by decide⟩
  exact h.trans rfl

/-- C5 counterexample: the error-detail call with HTTP status 200 and a
body whose JSON decoding succeeds (with the empty list) does not
succeed — it is a hard failure, refuting the claim that every 200
response with well-formed JSON succeeds. -/
theorem c5_counterexample :
    decodeNilDetail "[]" = Except.ok [] ∧
    getErrorReportDetail decodeNilDetail { statusCode := 200, body := "[]" } =
      Except.error "no error details found" := ⟨rfl, rfl⟩

/-- C5 (amended): for all three Raygun calls a non-200 response is a hard
failure whose message contains the status code and the body, and a decode
failure is a hard failure whose message contains the decode error; on a
200 response with well-formed JSON the application-list and
error-group-list calls succeed with the decoded value, while the
error-detail call succeeds with the first decoded element and fails when
the decoded list is empty. -/
theorem c5_http_error_contract
    (decodeApps : String → Except String (List RaygunApplication))
    (decodeGroups : String → Except String (List ErrorGroup))
    (decodeDetail : String → Except String (List CrashReportDetail))
    (resp : HTTPResponse) :
    (resp.statusCode ≠ 200 →
      fetchApplications decodeApps resp =
        Except.error (apiStatusMessage resp.statusCode resp.body) ∧
      listErrorGroups decodeGroups resp =
        Except.error (apiStatusMessage resp.statusCode resp.body) ∧
      getErrorReportDetail decodeDetail resp =
        Except.error (apiStatusMessage resp.statusCode resp.body) ∧
      containsSubstr (apiStatusMessage resp.statusCode resp.body)
        (toString resp.statusCode) ∧
      containsSubstr (apiStatusMessage resp.statusCode resp.body) resp.body) ∧
    (resp.statusCode = 200 →
      (∀ e, decodeApps resp.body = Except.error e →
        fetchApplications decodeApps resp =
          Except.error ("failed to decode applications: " ++ e) ∧
        containsSubstr ("failed to decode applications: " ++ e) e) ∧
      (∀ e, decodeGroups resp.body = Except.error e →
        listErrorGroups decodeGroups resp =
          Except.error ("failed to decode error groups: " ++ e) ∧
        containsSubstr ("failed to decode error groups: " ++ e) e) ∧
      (∀ e, decodeDetail resp.body = Except.error e →
        getErrorReportDetail decodeDetail resp =
          Except.error ("failed to decode error detail: " ++ e) ∧
        containsSubstr ("failed to decode error detail: " ++ e) e) ∧
      (∀ v, decodeApps resp.body = Except.ok v →
        fetchApplications decodeApps resp = Except.ok v) ∧
      (∀ v, decodeGroups resp.body = Except.ok v →
        listErrorGroups decodeGroups resp = Except.ok v) ∧
      (decodeDetail resp.body = Except.ok [] →
        getErrorReportDetail decodeDetail resp =
          Except.error "no error details found") ∧
      (∀ d rest, decodeDetail resp.body = Except.ok (d :: rest) →
        getErrorReportDetail decodeDetail resp = Except.ok d)) := by
  constructor
  · intro h
    refine ⟨by simp [fetchApplications, h], by simp [listErrorGroups, h],
      by simp [getErrorReportDetail, h], ?_, ?_⟩
    · exact ⟨("raygun API returned status ").data,
        (": ").data ++ resp.body.data,
        by simp [apiStatusMessage, string_data_append]⟩
    · exact ⟨("raygun API returned status ").data ++
        (toString resp.statusCode).data ++ (": ").data, [],
        by simp [apiStatusMessage, string_data_append]⟩
  · intro h200
    refine ⟨fun e he => ⟨by simp [fetchApplications, h200, he],
        ⟨("failed to decode applications: ").data, [], by simp [string_data_append]⟩⟩,
      fun e he => ⟨by simp [listErrorGroups, h200, he],
        ⟨("failed to decode error groups: ").data, [], by simp [string_data_append]⟩⟩,
      fun e he => ⟨by simp [getErrorReportDetail, h200, he],
        ⟨("failed to decode error detail: ").data, [], by simp [string_data_append]⟩⟩,
      fun v hv => by simp [fetchApplications, h200, hv],
      fun v hv => by simp [listErrorGroups, h200, hv],
      fun hv => by simp [getErrorReportDetail, h200, hv],
      fun d rest hv => by simp [getErrorReportDetail, h200, hv]⟩

/-- C5 witness: a 401 response makes the application-list call fail with
the status-and-body message. -/
theorem c5_http_error_contract_witness :
    fetchApplications decodeApps0 { statusCode := 401, body := "unauthorized" } =
      Except.error (apiStatusMessage 401 "unauthorized") :=
  ((c5_http_error_contract decodeApps0 decodeGroups0 decodeNilDetail
    { statusCode := 401, body := "unauthorized" }).1 (by decide)).1

/-- C6: evaluating `checkoutBranch` in a run where both the best-effort
`git fetch --all` and `git pull` fail while the checkout succeeds: the
run is not aborted, but the only line printed is the checkout success
message — no warning about either failure is ever emitted. -/
theorem c6_silent_fetch_pull_ignore :
    checkoutBranch checkoutEnvFetchFails "main" =
      (Except.ok (), ["Checked out branch: main"]) := rfl

/-- C7: the rendered review prompt contains the supplied diff text
verbatim as a contiguous substring, and the rendered crash-analysis
prompt contains the supplied crash JSON verbatim as a contiguous
substring (templates modelled from the spec, as the embedded
`prompt.tmpl` files are absent from the source tree). -/
theorem c7_prompt_roundtrip (d : ReviewPromptData) (e : ErrorPromptData) :
    containsSubstr (renderReviewPrompt d) d.diff ∧
    containsSubstr (renderErrorPrompt e) e.crashDetails := by
  constructor
  · exact ⟨("You are reviewing branch ").data ++ d.branchName.data ++
      (" against ").data ++ d.targetBranch.data ++ (".\n\n=== DIFF ===\n").data,
      ("\n\nWrite the review to ").data ++ d.reviewFilePath.data ++ (".").data,
      by simp [renderReviewPrompt, string_data_append]⟩
  · exact ⟨("Analyze this crash: ").data ++ e.errorMessage.data ++
      ("\n\n=== CRASH DETAILS ===\n").data,
      ("\n\nWrite the analysis to ").data ++ e.analysisFilePath.data ++ (".").data,
      by simp [renderErrorPrompt, string_data_append]⟩

/-- C8: repository resolution succeeds on a resolvable path whose
absolute form contains a `.git` entry and fails with the
not-a-git-repository error when the entry is absent. -/
theorem c8_repo_resolution (abs : String → Option String)
    (gitEntryExists : String → Bool) (path a : String) (hres : abs path = some a) :
    (gitEntryExists (joinPath a ".git") = true →
      resolveRepository abs gitEntryExists path = Except.ok a) ∧
    (gitEntryExists (joinPath a ".git") = false →
      resolveRepository abs gitEntryExists path =
        Except.error (RepoErr.notAGitRepo a)) := by
  constructor <;> intro h <;> simp [resolveRepository, hres, h]

/-- C8 witness: a path whose `.git` entry exists resolves successfully. -/
theorem c8_repo_resolution_witness :
    resolveRepository absIdent fsWithGit "/repo" = Except.ok "/repo" :=
  (c8_repo_resolution absIdent fsWithGit "/repo" "/repo" rfl).1 (by decide)

/-- C9: evaluating the Output Publisher on a Linux system with the output
file present: the viewer subprocess invoked is the hardcoded macOS
`open` command — no dispatch on the operating system occurs — while the
publisher still returns success. -/
theorem c9_publisher_hardcodes_open :
    publishOutput { goos := "linux", outputFileExists := true, openSucceeds := true }
        "/repo/Review.md" =
      (Except.ok (), [("open", "/repo/Review.md")],
        ["Opening output file: /repo/Review.md"]) := rfl

/-- C10 counterexample: with a non-empty project flag and an empty
fetched application list, no application has the requested name, yet the
error is the generic no-applications message, which does not name the
requested project. -/
theorem c10_counterexample :
    chooseRaygunApplication "X" [] (some 1) =
      (Except.error "no applications found", false) ∧
    ¬ containsSubstr "no applications found" "X" := by
  refine ⟨rfl, fun h => ?_⟩
  have hm := containsSubstr_mem h (c := 'X') (by decide)
  revert hm
  decide

/-- C10 (amended): with a non-empty project flag and a non-empty fetched
list, selection is by exact name equality, with no interactive prompt and
no dependence on standard input; if no application has exactly the
requested name the error names the requested project.  With an empty
fetched list the call fails earlier with the generic no-applications
error. -/
theorem c10_project_flag_selection (raygunProject : String)
    (applications : List RaygunApplication) (stdin : Option Int)
    (hflag : raygunProject ≠ "") :
    (applications ≠ [] →
      (chooseRaygunApplication raygunProject applications stdin).2 = false ∧
      (∀ stdin2, chooseRaygunApplication raygunProject applications stdin2 =
        chooseRaygunApplication raygunProject applications stdin) ∧
      (∀ application,
        applications.find? (fun app => app.name == raygunProject) = some application →
        application.name = raygunProject ∧
        (chooseRaygunApplication raygunProject applications stdin).1 =
          Except.ok application) ∧
      (applications.find? (fun app => app.name == raygunProject) = none →
        ∃ msg, (chooseRaygunApplication raygunProject applications stdin).1 =
          Except.error msg ∧ containsSubstr msg raygunProject)) ∧
    (applications = [] →
      chooseRaygunApplication raygunProject applications stdin =
        (Except.error "no applications found", false)) := by
  constructor
  · intro hne
    have hlen : ¬ applications.length = 0 := by
      simpa [List.length_eq_zero] using hne
    refine ⟨?_, fun stdin2 => ?_, fun application hfind => ?_, fun hfind => ?_⟩
    · cases hf : applications.find? (fun app => app.name == raygunProject) <;>
        simp [chooseRaygunApplication, hlen, hflag, hf]
    · cases hf : applications.find? (fun app => app.name == raygunProject) <;>
        simp [chooseRaygunApplication, hlen, hflag, hf]
    · constructor
      · have := List.find?_some hfind
        simpa using this
      · simp [chooseRaygunApplication, hlen, hflag, hfind]
    · refine ⟨"raygun project \x27" ++ raygunProject ++ "\x27 not found",
        by simp [chooseRaygunApplication, hlen, hflag, hfind], ?_⟩
      exact ⟨("raygun project \x27").data, ("\x27 not found").data,
        by simp [string_data_append]⟩
  · intro he
    subst he
    rfl

/-- C10 witness: the flag value MyApp selects the application of that
name from a one-element list without consulting standard input. -/
theorem c10_project_flag_selection_witness :
    (chooseRaygunApplication "MyApp" appsW none).1 =
      Except.ok { identifier := "id1", name := "MyApp" } := by
  have h := (c10_project_flag_selection "MyApp" appsW none (by decide)).1 (by decide)
  exact (h.2.2.1 { identifier := "id1", name := "MyApp" } (by decide)).2
